import Mathlib

/-!
Verification of the DyCrypt cascade-encryption core: the two-stage cascade
cipher (DyCrypt.encrypt / DyCrypt.decrypt in src/DyCrypt.ts), and the binary
container (packData / unpackData in src/utils).

Buffers are modelled as lists of bytes (`List Nat`). The external
primitives from node:crypto (scrypt, AES-256-GCM, ChaCha20-Poly1305) are not
part of this repository; per the spec the core only orchestrates them. They
are modelled as deterministic, length-preserving stream AEADs with a
recomputed-tag equality check, which is the contract the spec states for
them (ciphertext length equals plaintext length, tag verified on decrypt).
Randomness (crypto.randomBytes) is passed in as explicit parameters.
-/

set_option maxRecDepth 16384

namespace DyCrypt

/-- Byte-wise xor of two byte lists (truncating to the shorter). -/
def zipXor (a b : List Nat) : List Nat := List.zipWith Nat.xor a b

/-- Modelled from the spec: a concrete deterministic byte-valued mixing
function standing in for the external cryptographic primitives' internals
(scrypt and the two AEAD keystreams and MACs live in node:crypto, outside
this repository). Only determinism and the seed-dependence matter for the
claims. -/
def mixByte (seed : Nat) (l : List Nat) : Nat :=
  l.foldl (fun acc b => (acc * 31 + b + seed) % 256) (seed % 256)

/-- Modelled from the spec: `derive(passphrase, salt) -> 32-byte key`,
deterministic. Stands in for crypto.scrypt with the fixed cost parameters
(N = 16384, r = 8, p = 1, keyLength = 32). -/
def deriveKey (password salt : List Nat) : List Nat :=
  (List.range 32).map (fun i => mixByte (i + 7) (password ++ salt))

/-- Modelled from the spec: keystream of an AEAD stream transform.
`alg` distinguishes the two distinct AEAD algorithms (1 = AES-256-GCM,
2 = ChaCha20-Poly1305). -/
def keystream (alg : Nat) (key iv : List Nat) (n : Nat) : List Nat :=
  (List.range n).map (fun i => mixByte (alg * 131 + i) (key ++ iv))

/-- Modelled from the spec: the 16-byte authentication tag an AEAD stage
computes over (key, iv, ciphertext). -/
def aeadTag (alg : Nat) (key iv ct : List Nat) : List Nat :=
  (List.range 16).map (fun i => mixByte (alg * 257 + i) (key ++ iv ++ ct))

/-- Modelled from the spec: AEAD encrypt — a length-preserving stream
transform (xor with the keystream) plus a 16-byte tag carried out-of-band. -/
def aeadEncrypt (alg : Nat) (key iv pt : List Nat) : List Nat × List Nat :=
  let ct := zipXor pt (keystream alg key iv pt.length)
  (ct, aeadTag alg key iv ct)

/-- Modelled from the spec: AEAD decrypt — recompute the tag over the
received ciphertext and verify; only on success return the plaintext.
node's decipher.final() throws when the tag does not verify. -/
def aeadDecrypt (alg : Nat) (key iv ct tag : List Nat) : Option (List Nat) :=
  if tag = aeadTag alg key iv ct then some (zipXor ct (keystream alg key iv ct.length))
  else none

/-- The structured result of DyCrypt.encrypt (src/types.ts EncryptedData);
base64 encoding/decoding of the fields is a bijection on bytes, so the
fields are modelled directly as byte lists. -/
structure EncryptedData where
  salt1 : List Nat
  salt2 : List Nat
  iv1 : List Nat
  iv2 : List Nat
  authTag1 : List Nat
  authTag2 : List Nat
  ciphertext : List Nat
deriving DecidableEq, Repr

/-- The uniform message node:crypto raises from decipher.final() when an
AEAD tag fails verification — identical for the aes-256-gcm and
chacha20-poly1305 deciphers used in src/DyCrypt.ts. -/
def nodeAuthFailMsg : String := "Unsupported state or unable to authenticate data"

/-- Error surfaced by decrypt: the spec's AuthenticationError, carrying the
uniform node message and no data bytes. -/
inductive DecryptError where
  | authenticationError (msg : String)
deriving DecidableEq, Repr

/-- DyCrypt.encrypt (src/DyCrypt.ts lines 109-168): layer 1 AES-256-GCM on
the plaintext, then layer 2 ChaCha20-Poly1305 on layer 1's ciphertext, each
with a fresh salt (scrypt-derived key) and a fresh 12-byte IV. The four
random values drawn by crypto.randomBytes are explicit parameters. -/
def encrypt (masterPassword salt1 iv1 salt2 iv2 data : List Nat) : EncryptedData :=
  let key1 := deriveKey masterPassword salt1
  let e1 := aeadEncrypt 1 key1 iv1 data
  let key2 := deriveKey masterPassword salt2
  let e2 := aeadEncrypt 2 key2 iv2 e1.1
  { salt1 := salt1, salt2 := salt2, iv1 := iv1, iv2 := iv2,
    authTag1 := e1.2, authTag2 := e2.2, ciphertext := e2.1 }

/-- DyCrypt.decrypt (src/DyCrypt.ts lines 191-239): derive key2 from salt2
and reverse layer 2 (ChaCha20-Poly1305) verifying authTag2 first; only on
success derive key1 and reverse layer 1 (AES-256-GCM) verifying authTag1.
A tag failure at either layer surfaces the same uniform error. -/
def decrypt (masterPassword : List Nat) (ed : EncryptedData) :
    Except DecryptError (List Nat) :=
  let key2 := deriveKey masterPassword ed.salt2
  match aeadDecrypt 2 key2 ed.iv2 ed.ciphertext ed.authTag2 with
  | none => .error (.authenticationError nodeAuthFailMsg)
  | some decrypted2 =>
    let key1 := deriveKey masterPassword ed.salt1
    match aeadDecrypt 1 key1 ed.iv1 decrypted2 ed.authTag1 with
    | none => .error (.authenticationError nodeAuthFailMsg)
    | some decrypted1 => .ok decrypted1

/-- The DyCrypt class instance state: the constructor stores the passphrase
(UTF-8 encoded) in the private masterPassword field (src/DyCrypt.ts lines
38-62). -/
structure DyCryptInstance where
  masterPassword : List Nat
deriving DecidableEq, Repr

/-- The DyCrypt constructor: stores the passphrase bytes on the instance. -/
def mkInstance (masterPassword : List Nat) : DyCryptInstance :=
  { masterPassword := masterPassword }

/-- An encrypt call on a DyCrypt instance: reads this.masterPassword and
returns the result together with the (unmodified) instance state after the
call. -/
def instanceEncrypt (st : DyCryptInstance) (salt1 iv1 salt2 iv2 data : List Nat) :
    EncryptedData × DyCryptInstance :=
  (encrypt st.masterPassword salt1 iv1 salt2 iv2 data, st)

/-- A decrypt call on a DyCrypt instance: reads this.masterPassword and
returns the result together with the (unmodified) instance state after the
call. -/
def instanceDecrypt (st : DyCryptInstance) (ed : EncryptedData) :
    Except DecryptError (List Nat) × DyCryptInstance :=
  (decrypt st.masterPassword ed, st)

/-- Error thrown by packData when a fixed field has the wrong length: the
spec's ValidationError, naming the offending field and its actual length
(the code's message carries exactly these two data). -/
inductive PackError where
  | validationError (field : String) (actual : Nat)
deriving DecidableEq, Repr

/-- Error thrown by unpackData on a short buffer: the spec's
MalformedContainerError, carrying the received length. -/
inductive UnpackError where
  | malformedContainerError (received : Nat)
deriving DecidableEq, Repr

/-- Buffer.allocUnsafe(size): a buffer of `size` bytes whose initial
contents are arbitrary uninitialized memory, modelled by the function
`junk`. -/
def allocBytes (junk : Nat → Nat) (size : Nat) : List Nat :=
  (List.range size).map junk

/-- src.copy(target, offset): overwrite target from `offset` with the bytes
of src, truncated to the space available in target. -/
def bufCopy (src target : List Nat) (offset : Nat) : List Nat :=
  target.take offset ++ src.take (target.length - offset) ++
    target.drop (offset + src.length)

/-- The successful write sequence of packData: allocate 88 + payload bytes
(uninitialized: `junk`), then copy the six fields and the payload at the
running offsets 0, 16, 32, 44, 56, 72, 88 — innermost copy first, exactly
as the source performs them. -/
def packBytes (junk : Nat → Nat)
    (salt1 salt2 iv1 iv2 authTag1 authTag2 encryptedData : List Nat) : List Nat :=
  bufCopy encryptedData
    (bufCopy authTag2
      (bufCopy authTag1
        (bufCopy iv2
          (bufCopy iv1
            (bufCopy salt2
              (bufCopy salt1 (allocBytes junk (88 + encryptedData.length)) 0)
              16)
            32)
          44)
        56)
      72)
    88

/-- packData (src/unnamed/part_000 lines 35-95), with the uninitialized
contents of the Buffer.allocUnsafe allocation made explicit as `junk`:
validate the six fixed lengths in source order, then perform the write
sequence of packBytes. -/
def packDataFrom (junk : Nat → Nat)
    (salt1 salt2 iv1 iv2 authTag1 authTag2 encryptedData : List Nat) :
    Except PackError (List Nat) :=
  if salt1.length ≠ 16 then .error (.validationError "Salt1" salt1.length)
  else if salt2.length ≠ 16 then .error (.validationError "Salt2" salt2.length)
  else if iv1.length ≠ 12 then .error (.validationError "IV1" iv1.length)
  else if iv2.length ≠ 12 then .error (.validationError "IV2" iv2.length)
  else if authTag1.length ≠ 16 then .error (.validationError "AuthTag1" authTag1.length)
  else if authTag2.length ≠ 16 then .error (.validationError "AuthTag2" authTag2.length)
  else .ok (packBytes junk salt1 salt2 iv1 iv2 authTag1 authTag2 encryptedData)

/-- The result of unpackData (src/types.ts UnpackedData). -/
structure UnpackedData where
  salt1 : List Nat
  salt2 : List Nat
  iv1 : List Nat
  iv2 : List Nat
  authTag1 : List Nat
  authTag2 : List Nat
  encryptedData : List Nat
deriving DecidableEq, Repr

/-- buffer.subarray(start, stop). -/
def subarray (buffer : List Nat) (start stop : Nat) : List Nat :=
  (buffer.drop start).take (stop - start)

/-- unpackData (src/utils/unpackData.ts lines 25-68): reject buffers shorter
than the 88-byte header, otherwise slice the six fields at offsets
0, 16, 32, 44, 56, 72 and take the remainder from 88 as the payload. -/
def unpackData (buffer : List Nat) : Except UnpackError UnpackedData :=
  if buffer.length < 88 then .error (.malformedContainerError buffer.length)
  else .ok
    { salt1 := subarray buffer 0 16
      salt2 := subarray buffer 16 32
      iv1 := subarray buffer 32 44
      iv2 := subarray buffer 44 56
      authTag1 := subarray buffer 56 72
      authTag2 := subarray buffer 72 88
      encryptedData := buffer.drop 88 }

/-- The keystream has exactly the requested length. -/
theorem length_keystream (alg : Nat) (key iv : List Nat) (n : Nat) :
    (keystream alg key iv n).length = n := by
  simp [keystream]

/-- The tag always has 16 bytes. -/
theorem length_aeadTag (alg : Nat) (key iv ct : List Nat) :
    (aeadTag alg key iv ct).length = 16 := by
  simp [aeadTag]

/-- Length of a byte-wise xor. -/
theorem length_zipXor (a b : List Nat) :
    (zipXor a b).length = min a.length b.length := by
  simp [zipXor]

/-- Xoring twice with the same (long enough) keystream is the identity. -/
theorem zipXor_cancel (m ks : List Nat) (h : m.length ≤ ks.length) :
    zipXor (zipXor m ks) ks = m := by
  induction m generalizing ks with
  | nil => simp [zipXor]
  | cons a as ih =>
    cases ks with
    | nil => simp at h
    | cons b bs =>
      simp only [List.length_cons] at h
      simp only [zipXor, List.zipWith_cons_cons, List.cons.injEq]
      exact ⟨Nat.xor_cancel_right b a, ih bs (by omega)⟩

/-- AEAD decrypt inverts AEAD encrypt with the same key and iv: the
recomputed tag matches and the keystream cancels. -/
theorem aeadDecrypt_aeadEncrypt (alg : Nat) (key iv pt : List Nat) :
    aeadDecrypt alg key iv (aeadEncrypt alg key iv pt).1 (aeadEncrypt alg key iv pt).2
      = some pt := by
  show aeadDecrypt alg key iv (zipXor pt (keystream alg key iv pt.length))
    (aeadTag alg key iv (zipXor pt (keystream alg key iv pt.length))) = some pt
  unfold aeadDecrypt
  rw [if_pos rfl]
  have hct : (zipXor pt (keystream alg key iv pt.length)).length = pt.length := by
    simp [length_zipXor, length_keystream]
  rw [hct, zipXor_cancel pt _ (by simp [length_keystream])]

/-- Each layer's ciphertext has exactly the length of that layer's input. -/
theorem length_aeadEncrypt (alg : Nat) (key iv pt : List Nat) :
    (aeadEncrypt alg key iv pt).1.length = pt.length := by
  show (zipXor pt (keystream alg key iv pt.length)).length = pt.length
  simp [length_zipXor, length_keystream]

/-- C1: for every passphrase and every plaintext (including the empty
sequence), and for all randomness drawn during encryption, decrypting the
result of encryption with the same passphrase returns the original
plaintext. -/
theorem decrypt_encrypt_roundtrip (mp salt1 iv1 salt2 iv2 m : List Nat) :
    decrypt mp (encrypt mp salt1 iv1 salt2 iv2 m) = .ok m := by
  simp only [decrypt, encrypt, aeadDecrypt_aeadEncrypt]

/-- C2: decrypt reverses layer 2 (ChaCha20-Poly1305, key derived from
salt2) first; when tag2 verification fails the call surfaces the uniform
authentication error and the result does not depend on any layer-1 field
(salt1, iv1, authTag1) — layer 1 is never attempted. -/
theorem decrypt_tag2_failure (mp : List Nat) (ed : EncryptedData)
    (h : aeadDecrypt 2 (deriveKey mp ed.salt2) ed.iv2 ed.ciphertext ed.authTag2 = none) :
    decrypt mp ed = .error (.authenticationError nodeAuthFailMsg) ∧
    ∀ salt1' iv1' authTag1' : List Nat,
      decrypt mp { ed with salt1 := salt1', iv1 := iv1', authTag1 := authTag1' }
        = .error (.authenticationError nodeAuthFailMsg) := by
  constructor
  · simp only [decrypt, h]
  · intro salt1' iv1' authTag1'
    simp only [decrypt, h]

/-- C2 witness: a concrete container whose outer tag does not verify is
rejected with the uniform authentication error. -/
theorem decrypt_tag2_failure_witness :
    decrypt [1, 2] { salt1 := [3], salt2 := [4], iv1 := [5], iv2 := [6], authTag1 := [7], authTag2 := [8], ciphertext := [9] }
      = .error (.authenticationError nodeAuthFailMsg) :=
  (decrypt_tag2_failure [1, 2]
    { salt1 := [3], salt2 := [4], iv1 := [5], iv2 := [6], authTag1 := [7], authTag2 := [8], ciphertext := [9] }
    (by decide)).1

/-- C3: whenever decrypt fails, the error surfaced to the caller is the
single uniform authentication error: its content is the same whichever
layer rejected the tag, and it carries no intermediate bytes. -/
theorem decrypt_error_uniform (mp : List Nat) (ed : EncryptedData) (e : DecryptError)
    (h : decrypt mp ed = .error e) :
    e = .authenticationError nodeAuthFailMsg := by
  cases h2 : aeadDecrypt 2 (deriveKey mp ed.salt2) ed.iv2 ed.ciphertext ed.authTag2 with
  | none =>
    simp only [decrypt, h2, Except.error.injEq] at h
    exact h.symm
  | some d2 =>
    cases h1 : aeadDecrypt 1 (deriveKey mp ed.salt1) ed.iv1 d2 ed.authTag1 with
    | none =>
      simp only [decrypt, h2, h1, Except.error.injEq] at h
      exact h.symm
    | some d1 =>
      simp only [decrypt, h2, h1] at h
      exact Except.noConfusion h

/-- C3 witness: a concrete failing decrypt surfaces exactly the uniform
authentication error. -/
theorem decrypt_error_uniform_witness :
    DecryptError.authenticationError nodeAuthFailMsg
      = .authenticationError nodeAuthFailMsg :=
  decrypt_error_uniform [10]
    { salt1 := [], salt2 := [], iv1 := [], iv2 := [], authTag1 := [], authTag2 := [], ciphertext := [11] }
    (.authenticationError nodeAuthFailMsg) (by rfl)

/-- C9 counterexample: the claim that the core retains no passphrase bytes
after an encrypt call returns is false — the DyCrypt instance constructed
from a concrete passphrase still holds exactly those passphrase bytes in
its masterPassword field after instanceEncrypt returns. -/
theorem passphrase_retained_counterexample :
    ((instanceEncrypt (mkInstance [42, 43]) [0] [1] [2] [3] [4]).2).masterPassword
        = [42, 43] ∧ [42, 43] ≠ ([] : List Nat) := by
  constructor
  · rfl
  · decide

/-- C9 amended: the passphrase is supplied once, to the DyCrypt
constructor, which stores its bytes in the instance's private
masterPassword field; encrypt and decrypt read that field, and after either
call returns the instance still holds the passphrase bytes unchanged for
the lifetime of the instance. -/
theorem passphrase_retained (mp salt1 iv1 salt2 iv2 data : List Nat)
    (ed : EncryptedData) :
    (mkInstance mp).masterPassword = mp ∧
    ((instanceEncrypt (mkInstance mp) salt1 iv1 salt2 iv2 data).2).masterPassword = mp ∧
    ((instanceDecrypt (mkInstance mp) ed).2).masterPassword = mp :=
  ⟨rfl, rfl, rfl⟩

/-- The allocated buffer has the requested size. -/
theorem length_allocBytes (junk : Nat → Nat) (size : Nat) :
    (allocBytes junk size).length = size := by
  simp [allocBytes]

/-- A copy into a buffer at the offset right after a prefix it already
holds overwrites the bytes there and leaves the prefix and the tail beyond
the copied bytes unchanged. -/
theorem bufCopy_step (pre D src : List Nat) (off : Nat) (hpre : pre.length = off)
    (hD : src.length ≤ D.length) :
    bufCopy src (pre ++ D) off = (pre ++ src) ++ D.drop src.length := by
  subst hpre
  unfold bufCopy
  have hsub : (pre ++ D).length - pre.length = D.length := by
    rw [List.length_append]; omega
  rw [List.take_left, hsub, List.take_of_length_le hD, ← List.drop_drop,
    List.drop_left, List.append_assoc]

/-- The write sequence of packData produces exactly the concatenation of
the six fields followed by the payload, whatever the uninitialized
allocation held. -/
theorem packBytes_eq (junk : Nat → Nat) (s1 s2 i1 i2 t1 t2 p : List Nat)
    (h1 : s1.length = 16) (h2 : s2.length = 16) (h3 : i1.length = 12)
    (h4 : i2.length = 12) (h5 : t1.length = 16) (h6 : t2.length = 16) :
    packBytes junk s1 s2 i1 i2 t1 t2 p = s1 ++ s2 ++ i1 ++ i2 ++ t1 ++ t2 ++ p := by
  set b0 := allocBytes junk (88 + p.length) with hb0
  have hb : b0.length = 88 + p.length := length_allocBytes junk _
  have hd1 : (b0.drop 16).length = 72 + p.length := by
    rw [List.length_drop, hb]; omega
  have hd2 : ((b0.drop 16).drop 16).length = 56 + p.length := by
    rw [List.length_drop, hd1]; omega
  have hd3 : (((b0.drop 16).drop 16).drop 12).length = 44 + p.length := by
    rw [List.length_drop, hd2]; omega
  have hd4 : ((((b0.drop 16).drop 16).drop 12).drop 12).length = 32 + p.length := by
    rw [List.length_drop, hd3]; omega
  have hd5 : (((((b0.drop 16).drop 16).drop 12).drop 12).drop 16).length = 16 + p.length := by
    rw [List.length_drop, hd4]; omega
  have hd6 : ((((((b0.drop 16).drop 16).drop 12).drop 12).drop 16).drop 16).length = p.length := by
    rw [List.length_drop, hd5]; omega
  have e1 : bufCopy s1 b0 0 = s1 ++ b0.drop 16 := by
    have := bufCopy_step [] b0 s1 0 rfl (by omega)
    simpa [h1] using this
  have e2 : bufCopy s2 (s1 ++ b0.drop 16) 16 = (s1 ++ s2) ++ (b0.drop 16).drop 16 := by
    have := bufCopy_step s1 (b0.drop 16) s2 16 h1 (by omega)
    simpa [h2] using this
  have e3 : bufCopy i1 ((s1 ++ s2) ++ (b0.drop 16).drop 16) 32
      = ((s1 ++ s2) ++ i1) ++ ((b0.drop 16).drop 16).drop 12 := by
    have := bufCopy_step (s1 ++ s2) ((b0.drop 16).drop 16) i1 32
      (by simp [h1, h2]) (by omega)
    simpa [h3] using this
  have e4 : bufCopy i2 (((s1 ++ s2) ++ i1) ++ ((b0.drop 16).drop 16).drop 12) 44
      = (((s1 ++ s2) ++ i1) ++ i2) ++ (((b0.drop 16).drop 16).drop 12).drop 12 := by
    have := bufCopy_step ((s1 ++ s2) ++ i1) (((b0.drop 16).drop 16).drop 12) i2 44
      (by simp [h1, h2, h3]) (by omega)
    simpa [h4] using this
  have e5 : bufCopy t1 ((((s1 ++ s2) ++ i1) ++ i2) ++ (((b0.drop 16).drop 16).drop 12).drop 12) 56
      = ((((s1 ++ s2) ++ i1) ++ i2) ++ t1) ++ ((((b0.drop 16).drop 16).drop 12).drop 12).drop 16 := by
    have := bufCopy_step (((s1 ++ s2) ++ i1) ++ i2) ((((b0.drop 16).drop 16).drop 12).drop 12) t1 56
      (by simp [h1, h2, h3, h4]) (by omega)
    simpa [h5] using this
  have e6 : bufCopy t2 (((((s1 ++ s2) ++ i1) ++ i2) ++ t1) ++ ((((b0.drop 16).drop 16).drop 12).drop 12).drop 16) 72
      = (((((s1 ++ s2) ++ i1) ++ i2) ++ t1) ++ t2) ++ (((((b0.drop 16).drop 16).drop 12).drop 12).drop 16).drop 16 := by
    have := bufCopy_step ((((s1 ++ s2) ++ i1) ++ i2) ++ t1) (((((b0.drop 16).drop 16).drop 12).drop 12).drop 16) t2 72
      (by simp [h1, h2, h3, h4, h5]) (by omega)
    simpa [h6] using this
  have e7 : bufCopy p ((((((s1 ++ s2) ++ i1) ++ i2) ++ t1) ++ t2) ++ (((((b0.drop 16).drop 16).drop 12).drop 12).drop 16).drop 16) 88
      = ((((((s1 ++ s2) ++ i1) ++ i2) ++ t1) ++ t2) ++ p)
        ++ ((((((b0.drop 16).drop 16).drop 12).drop 12).drop 16).drop 16).drop p.length := by
    have := bufCopy_step (((((s1 ++ s2) ++ i1) ++ i2) ++ t1) ++ t2)
      ((((((b0.drop 16).drop 16).drop 12).drop 12).drop 16).drop 16) p 88
      (by simp [h1, h2, h3, h4, h5, h6]) (by omega)
    exact this
  have hnil : ((((((b0.drop 16).drop 16).drop 12).drop 12).drop 16).drop 16).drop p.length = [] :=
    List.drop_eq_nil_of_le (by omega)
  unfold packBytes
  rw [← hb0, e1, e2, e3, e4, e5, e6, e7, hnil, List.append_nil]

/-- On valid-length fields packData succeeds and returns exactly the
concatenation of the six fields and the payload, for every content of the
uninitialized allocation. -/
theorem packDataFrom_eq (junk : Nat → Nat) (s1 s2 i1 i2 t1 t2 p : List Nat)
    (h1 : s1.length = 16) (h2 : s2.length = 16) (h3 : i1.length = 12)
    (h4 : i2.length = 12) (h5 : t1.length = 16) (h6 : t2.length = 16) :
    packDataFrom junk s1 s2 i1 i2 t1 t2 p
      = .ok (s1 ++ s2 ++ i1 ++ i2 ++ t1 ++ t2 ++ p) := by
  unfold packDataFrom
  rw [if_neg (by omega), if_neg (by omega), if_neg (by omega), if_neg (by omega),
    if_neg (by omega), if_neg (by omega),
    packBytes_eq junk s1 s2 i1 i2 t1 t2 p h1 h2 h3 h4 h5 h6]

/-- Slicing a concatenation at the prefix boundary returns the middle
part. -/
theorem subarray_at (pre mid rest : List Nat) :
    subarray (pre ++ (mid ++ rest)) pre.length (pre.length + mid.length) = mid := by
  unfold subarray
  have hsub : pre.length + mid.length - pre.length = mid.length := by omega
  rw [List.drop_left, hsub, List.take_left]

/-- subarray at explicit numeric bounds equal to the prefix boundary. -/
theorem subarray_at' (pre mid rest : List Nat) (a b : Nat) (ha : pre.length = a)
    (hb : pre.length + mid.length = b) :
    subarray (pre ++ (mid ++ rest)) a b = mid := by
  subst ha
  subst hb
  exact subarray_at pre mid rest

/-- Dropping exactly a prefix of known length. -/
theorem drop_at (pre rest : List Nat) (a : Nat) (ha : pre.length = a) :
    (pre ++ rest).drop a = rest :=
  List.drop_left' ha

/-- Bytes 0 to 16 of a packed container are salt1. -/
theorem packed_salt1 (s1 s2 i1 i2 t1 t2 p : List Nat) (h1 : s1.length = 16) :
    subarray (s1 ++ s2 ++ i1 ++ i2 ++ t1 ++ t2 ++ p) 0 16 = s1 := by
  have := subarray_at' [] s1 (s2 ++ i1 ++ i2 ++ t1 ++ t2 ++ p) 0 16 rfl (by simpa using h1)
  simpa using this

/-- Bytes 16 to 32 of a packed container are salt2. -/
theorem packed_salt2 (s1 s2 i1 i2 t1 t2 p : List Nat)
    (h1 : s1.length = 16) (h2 : s2.length = 16) :
    subarray (s1 ++ s2 ++ i1 ++ i2 ++ t1 ++ t2 ++ p) 16 32 = s2 := by
  have := subarray_at' s1 s2 (i1 ++ i2 ++ t1 ++ t2 ++ p) 16 32 h1 (by rw [h1, h2])
  simpa [List.append_assoc] using this

/-- Bytes 32 to 44 of a packed container are iv1. -/
theorem packed_iv1 (s1 s2 i1 i2 t1 t2 p : List Nat)
    (h1 : s1.length = 16) (h2 : s2.length = 16) (h3 : i1.length = 12) :
    subarray (s1 ++ s2 ++ i1 ++ i2 ++ t1 ++ t2 ++ p) 32 44 = i1 := by
  have := subarray_at' (s1 ++ s2) i1 (i2 ++ t1 ++ t2 ++ p) 32 44
    (by simp [h1, h2]) (by simp [h1, h2, h3])
  simpa [List.append_assoc] using this

/-- Bytes 44 to 56 of a packed container are iv2. -/
theorem packed_iv2 (s1 s2 i1 i2 t1 t2 p : List Nat)
    (h1 : s1.length = 16) (h2 : s2.length = 16) (h3 : i1.length = 12)
    (h4 : i2.length = 12) :
    subarray (s1 ++ s2 ++ i1 ++ i2 ++ t1 ++ t2 ++ p) 44 56 = i2 := by
  have := subarray_at' (s1 ++ s2 ++ i1) i2 (t1 ++ t2 ++ p) 44 56
    (by simp [h1, h2, h3]) (by simp [h1, h2, h3, h4])
  simpa [List.append_assoc] using this

/-- Bytes 56 to 72 of a packed container are tag1. -/
theorem packed_tag1 (s1 s2 i1 i2 t1 t2 p : List Nat)
    (h1 : s1.length = 16) (h2 : s2.length = 16) (h3 : i1.length = 12)
    (h4 : i2.length = 12) (h5 : t1.length = 16) :
    subarray (s1 ++ s2 ++ i1 ++ i2 ++ t1 ++ t2 ++ p) 56 72 = t1 := by
  have := subarray_at' (s1 ++ s2 ++ i1 ++ i2) t1 (t2 ++ p) 56 72
    (by simp [h1, h2, h3, h4]) (by simp [h1, h2, h3, h4, h5])
  simpa [List.append_assoc] using this

/-- Bytes 72 to 88 of a packed container are tag2. -/
theorem packed_tag2 (s1 s2 i1 i2 t1 t2 p : List Nat)
    (h1 : s1.length = 16) (h2 : s2.length = 16) (h3 : i1.length = 12)
    (h4 : i2.length = 12) (h5 : t1.length = 16) (h6 : t2.length = 16) :
    subarray (s1 ++ s2 ++ i1 ++ i2 ++ t1 ++ t2 ++ p) 72 88 = t2 := by
  have := subarray_at' (s1 ++ s2 ++ i1 ++ i2 ++ t1) t2 p 72 88
    (by simp [h1, h2, h3, h4, h5]) (by simp [h1, h2, h3, h4, h5, h6])
  simpa [List.append_assoc] using this

/-- Bytes from 88 of a packed container are the payload. -/
theorem packed_payload (s1 s2 i1 i2 t1 t2 p : List Nat)
    (h1 : s1.length = 16) (h2 : s2.length = 16) (h3 : i1.length = 12)
    (h4 : i2.length = 12) (h5 : t1.length = 16) (h6 : t2.length = 16) :
    (s1 ++ s2 ++ i1 ++ i2 ++ t1 ++ t2 ++ p).drop 88 = p := by
  have := drop_at (s1 ++ s2 ++ i1 ++ i2 ++ t1 ++ t2) p 88
    (by simp [h1, h2, h3, h4, h5, h6])
  simpa [List.append_assoc] using this

/-- The packed container has length 88 + payload length. -/
theorem packed_length (s1 s2 i1 i2 t1 t2 p : List Nat)
    (h1 : s1.length = 16) (h2 : s2.length = 16) (h3 : i1.length = 12)
    (h4 : i2.length = 12) (h5 : t1.length = 16) (h6 : t2.length = 16) :
    (s1 ++ s2 ++ i1 ++ i2 ++ t1 ++ t2 ++ p).length = 88 + p.length := by
  simp only [List.length_append, h1, h2, h3, h4, h5, h6]

/-- C4: on valid-length fixed fields, pack returns exactly the
concatenation salt1, salt2, iv1, iv2, tag1, tag2, payload — whatever the
uninitialized allocation held — with each field at its fixed offset
(salt1 at 0 to 16, salt2 at 16 to 32, iv1 at 32 to 44, iv2 at 44 to 56,
tag1 at 56 to 72, tag2 at 72 to 88, payload from 88), and unpack slices
every buffer at exactly the same offsets. -/
theorem pack_layout (junk : Nat → Nat) (s1 s2 i1 i2 t1 t2 p : List Nat)
    (h1 : s1.length = 16) (h2 : s2.length = 16) (h3 : i1.length = 12)
    (h4 : i2.length = 12) (h5 : t1.length = 16) (h6 : t2.length = 16) :
    packDataFrom junk s1 s2 i1 i2 t1 t2 p = .ok (s1 ++ s2 ++ i1 ++ i2 ++ t1 ++ t2 ++ p) ∧
    subarray (s1 ++ s2 ++ i1 ++ i2 ++ t1 ++ t2 ++ p) 0 16 = s1 ∧
    subarray (s1 ++ s2 ++ i1 ++ i2 ++ t1 ++ t2 ++ p) 16 32 = s2 ∧
    subarray (s1 ++ s2 ++ i1 ++ i2 ++ t1 ++ t2 ++ p) 32 44 = i1 ∧
    subarray (s1 ++ s2 ++ i1 ++ i2 ++ t1 ++ t2 ++ p) 44 56 = i2 ∧
    subarray (s1 ++ s2 ++ i1 ++ i2 ++ t1 ++ t2 ++ p) 56 72 = t1 ∧
    subarray (s1 ++ s2 ++ i1 ++ i2 ++ t1 ++ t2 ++ p) 72 88 = t2 ∧
    (s1 ++ s2 ++ i1 ++ i2 ++ t1 ++ t2 ++ p).drop 88 = p ∧
    ∀ buffer : List Nat, 88 ≤ buffer.length →
      unpackData buffer = .ok
        { salt1 := subarray buffer 0 16, salt2 := subarray buffer 16 32,
          iv1 := subarray buffer 32 44, iv2 := subarray buffer 44 56,
          authTag1 := subarray buffer 56 72, authTag2 := subarray buffer 72 88,
          encryptedData := buffer.drop 88 } := by
  refine ⟨packDataFrom_eq junk s1 s2 i1 i2 t1 t2 p h1 h2 h3 h4 h5 h6,
    packed_salt1 s1 s2 i1 i2 t1 t2 p h1,
    packed_salt2 s1 s2 i1 i2 t1 t2 p h1 h2,
    packed_iv1 s1 s2 i1 i2 t1 t2 p h1 h2 h3,
    packed_iv2 s1 s2 i1 i2 t1 t2 p h1 h2 h3 h4,
    packed_tag1 s1 s2 i1 i2 t1 t2 p h1 h2 h3 h4 h5,
    packed_tag2 s1 s2 i1 i2 t1 t2 p h1 h2 h3 h4 h5 h6,
    packed_payload s1 s2 i1 i2 t1 t2 p h1 h2 h3 h4 h5 h6, ?_⟩
  intro buffer hbuf
  unfold unpackData
  rw [if_neg (by omega)]

/-- C4 witness: packing concrete valid-length fields returns their exact
concatenation. -/
theorem pack_layout_witness :
    packDataFrom (fun _ => 0) (List.replicate 16 1) (List.replicate 16 2)
        (List.replicate 12 3) (List.replicate 12 4) (List.replicate 16 5)
        (List.replicate 16 6) [7, 8]
      = .ok (List.replicate 16 1 ++ List.replicate 16 2 ++ List.replicate 12 3
          ++ List.replicate 12 4 ++ List.replicate 16 5 ++ List.replicate 16 6 ++ [7, 8]) :=
  (pack_layout (fun _ => 0) (List.replicate 16 1) (List.replicate 16 2)
    (List.replicate 12 3) (List.replicate 12 4) (List.replicate 16 5)
    (List.replicate 16 6) [7, 8]
    (by decide) (by decide) (by decide) (by decide) (by decide) (by decide)).1

/-- C5: for all valid-length fixed fields and any payload (including
empty), unpacking the packed container reproduces all seven fields
byte-for-byte. -/
theorem unpack_pack_roundtrip (junk : Nat → Nat) (s1 s2 i1 i2 t1 t2 p : List Nat)
    (h1 : s1.length = 16) (h2 : s2.length = 16) (h3 : i1.length = 12)
    (h4 : i2.length = 12) (h5 : t1.length = 16) (h6 : t2.length = 16) :
    ∃ buf : List Nat, packDataFrom junk s1 s2 i1 i2 t1 t2 p = .ok buf ∧
      unpackData buf = .ok
        { salt1 := s1, salt2 := s2, iv1 := i1, iv2 := i2,
          authTag1 := t1, authTag2 := t2, encryptedData := p } := by
  refine ⟨s1 ++ s2 ++ i1 ++ i2 ++ t1 ++ t2 ++ p,
    packDataFrom_eq junk s1 s2 i1 i2 t1 t2 p h1 h2 h3 h4 h5 h6, ?_⟩
  have hlen := packed_length s1 s2 i1 i2 t1 t2 p h1 h2 h3 h4 h5 h6
  unfold unpackData
  rw [if_neg (by omega),
    packed_salt1 s1 s2 i1 i2 t1 t2 p h1,
    packed_salt2 s1 s2 i1 i2 t1 t2 p h1 h2,
    packed_iv1 s1 s2 i1 i2 t1 t2 p h1 h2 h3,
    packed_iv2 s1 s2 i1 i2 t1 t2 p h1 h2 h3 h4,
    packed_tag1 s1 s2 i1 i2 t1 t2 p h1 h2 h3 h4 h5,
    packed_tag2 s1 s2 i1 i2 t1 t2 p h1 h2 h3 h4 h5 h6,
    packed_payload s1 s2 i1 i2 t1 t2 p h1 h2 h3 h4 h5 h6]

/-- C5 witness: a concrete pack/unpack round trip reproduces the fields. -/
theorem unpack_pack_roundtrip_witness :
    ∃ buf : List Nat,
      packDataFrom (fun n => n) (List.replicate 16 10) (List.replicate 16 20)
          (List.replicate 12 30) (List.replicate 12 40) (List.replicate 16 50)
          (List.replicate 16 60) [] = .ok buf ∧
      unpackData buf = .ok
        { salt1 := List.replicate 16 10, salt2 := List.replicate 16 20,
          iv1 := List.replicate 12 30, iv2 := List.replicate 12 40,
          authTag1 := List.replicate 16 50, authTag2 := List.replicate 16 60,
          encryptedData := [] } :=
  unpack_pack_roundtrip (fun n => n) (List.replicate 16 10) (List.replicate 16 20)
    (List.replicate 12 30) (List.replicate 12 40) (List.replicate 16 50)
    (List.replicate 16 60) []
    (by decide) (by decide) (by decide) (by decide) (by decide) (by decide)

/-- C6: whenever some fixed field has the wrong length (salts and tags 16,
IVs 12), pack fails with a ValidationError naming an offending field and
its actual length and returns no buffer; with all six lengths correct it
never fails. -/
theorem pack_validates (junk : Nat → Nat) (s1 s2 i1 i2 t1 t2 p : List Nat) :
    ((s1.length ≠ 16 ∨ s2.length ≠ 16 ∨ i1.length ≠ 12 ∨ i2.length ≠ 12 ∨
        t1.length ≠ 16 ∨ t2.length ≠ 16) →
      ∃ f a, packDataFrom junk s1 s2 i1 i2 t1 t2 p = .error (.validationError f a) ∧
        ((f = "Salt1" ∧ a = s1.length ∧ s1.length ≠ 16) ∨
         (f = "Salt2" ∧ a = s2.length ∧ s2.length ≠ 16) ∨
         (f = "IV1" ∧ a = i1.length ∧ i1.length ≠ 12) ∨
         (f = "IV2" ∧ a = i2.length ∧ i2.length ≠ 12) ∨
         (f = "AuthTag1" ∧ a = t1.length ∧ t1.length ≠ 16) ∨
         (f = "AuthTag2" ∧ a = t2.length ∧ t2.length ≠ 16))) ∧
    ((s1.length = 16 ∧ s2.length = 16 ∧ i1.length = 12 ∧ i2.length = 12 ∧
        t1.length = 16 ∧ t2.length = 16) →
      packDataFrom junk s1 s2 i1 i2 t1 t2 p
        = .ok (s1 ++ s2 ++ i1 ++ i2 ++ t1 ++ t2 ++ p)) := by
  constructor
  · intro hbad
    unfold packDataFrom
    split_ifs with c1 c2 c3 c4 c5 c6
    · exact ⟨"Salt1", s1.length, rfl, Or.inl ⟨rfl, rfl, c1⟩⟩
    · exact ⟨"Salt2", s2.length, rfl, Or.inr (Or.inl ⟨rfl, rfl, c2⟩)⟩
    · exact ⟨"IV1", i1.length, rfl, Or.inr (Or.inr (Or.inl ⟨rfl, rfl, c3⟩))⟩
    · exact ⟨"IV2", i2.length, rfl, Or.inr (Or.inr (Or.inr (Or.inl ⟨rfl, rfl, c4⟩)))⟩
    · exact ⟨"AuthTag1", t1.length, rfl,
        Or.inr (Or.inr (Or.inr (Or.inr (Or.inl ⟨rfl, rfl, c5⟩))))⟩
    · exact ⟨"AuthTag2", t2.length, rfl,
        Or.inr (Or.inr (Or.inr (Or.inr (Or.inr ⟨rfl, rfl, c6⟩))))⟩
    · exact absurd hbad (by tauto)
  · rintro ⟨e1, e2, e3, e4, e5, e6⟩
    exact packDataFrom_eq junk s1 s2 i1 i2 t1 t2 p e1 e2 e3 e4 e5 e6

/-- C6 witness: a 15-byte salt1 is rejected with a ValidationError naming
Salt1 and the length 15. -/
theorem pack_validates_witness :
    ∃ f a, packDataFrom (fun _ => 0) (List.replicate 15 0) (List.replicate 16 0)
        (List.replicate 12 0) (List.replicate 12 0) (List.replicate 16 0)
        (List.replicate 16 0) [] = .error (.validationError f a) ∧
      ((f = "Salt1" ∧ a = (List.replicate 15 (0 : Nat)).length ∧
          (List.replicate 15 (0 : Nat)).length ≠ 16) ∨
       (f = "Salt2" ∧ a = (List.replicate 16 (0 : Nat)).length ∧
          (List.replicate 16 (0 : Nat)).length ≠ 16) ∨
       (f = "IV1" ∧ a = (List.replicate 12 (0 : Nat)).length ∧
          (List.replicate 12 (0 : Nat)).length ≠ 12) ∨
       (f = "IV2" ∧ a = (List.replicate 12 (0 : Nat)).length ∧
          (List.replicate 12 (0 : Nat)).length ≠ 12) ∨
       (f = "AuthTag1" ∧ a = (List.replicate 16 (0 : Nat)).length ∧
          (List.replicate 16 (0 : Nat)).length ≠ 16) ∨
       (f = "AuthTag2" ∧ a = (List.replicate 16 (0 : Nat)).length ∧
          (List.replicate 16 (0 : Nat)).length ≠ 16)) :=
  (pack_validates (fun _ => 0) (List.replicate 15 0) (List.replicate 16 0)
    (List.replicate 12 0) (List.replicate 12 0) (List.replicate 16 0)
    (List.replicate 16 0) []).1 (Or.inl (by decide))

/-- C7: unpack fails with MalformedContainerError exactly when the input is
shorter than 88 bytes; on any input of length at least 88 it succeeds,
slicing the six header fields at the fixed offsets and taking the (possibly
empty) remainder as payload, with no further validation of any kind. -/
theorem unpack_malformed_iff (buffer : List Nat) :
    (unpackData buffer = .error (.malformedContainerError buffer.length)
        ↔ buffer.length < 88) ∧
    (88 ≤ buffer.length →
      unpackData buffer = .ok
        { salt1 := subarray buffer 0 16, salt2 := subarray buffer 16 32,
          iv1 := subarray buffer 32 44, iv2 := subarray buffer 44 56,
          authTag1 := subarray buffer 56 72, authTag2 := subarray buffer 72 88,
          encryptedData := buffer.drop 88 }) := by
  constructor
  · constructor
    · intro he
      by_contra hge
      push_neg at hge
      unfold unpackData at he
      rw [if_neg (by omega)] at he
      exact Except.noConfusion he
    · intro h
      unfold unpackData
      rw [if_pos h]
  · intro h
    unfold unpackData
    rw [if_neg (by omega)]

/-- C7 witness: a 50-byte buffer is rejected as malformed, and an 88-byte
buffer is accepted and sliced. -/
theorem unpack_malformed_iff_witness :
    unpackData (List.replicate 50 0) = .error (.malformedContainerError
        (List.replicate 50 (0 : Nat)).length) ∧
    unpackData (List.replicate 88 0) = .ok
      { salt1 := subarray (List.replicate 88 0) 0 16,
        salt2 := subarray (List.replicate 88 0) 16 32,
        iv1 := subarray (List.replicate 88 0) 32 44,
        iv2 := subarray (List.replicate 88 0) 44 56,
        authTag1 := subarray (List.replicate 88 0) 56 72,
        authTag2 := subarray (List.replicate 88 0) 72 88,
        encryptedData := (List.replicate 88 (0 : Nat)).drop 88 } :=
  ⟨(unpack_malformed_iff (List.replicate 50 0)).1.mpr (by decide),
   (unpack_malformed_iff (List.replicate 88 0)).2 (by decide)⟩

/-- C8: each layer's ciphertext has exactly the length of that layer's
input — no padding, tags carried separately — so packing the result of
encrypting an n-byte plaintext yields a container of exactly 88 + n
bytes. -/
theorem encrypt_lengths (mp s1 i1 s2 i2 data : List Nat)
    (hs1 : s1.length = 16) (hs2 : s2.length = 16)
    (hi1 : i1.length = 12) (hi2 : i2.length = 12) :
    (aeadEncrypt 1 (deriveKey mp s1) i1 data).1.length = data.length ∧
    (aeadEncrypt 2 (deriveKey mp s2) i2 (aeadEncrypt 1 (deriveKey mp s1) i1 data).1).1.length
      = (aeadEncrypt 1 (deriveKey mp s1) i1 data).1.length ∧
    (encrypt mp s1 i1 s2 i2 data).ciphertext.length = data.length ∧
    ∀ junk : Nat → Nat, ∃ buf : List Nat,
      packDataFrom junk s1 s2 i1 i2
          (encrypt mp s1 i1 s2 i2 data).authTag1
          (encrypt mp s1 i1 s2 i2 data).authTag2
          (encrypt mp s1 i1 s2 i2 data).ciphertext = .ok buf ∧
      buf.length = 88 + data.length := by
  have hct1 : (aeadEncrypt 1 (deriveKey mp s1) i1 data).1.length = data.length :=
    length_aeadEncrypt 1 (deriveKey mp s1) i1 data
  have hct2 : (aeadEncrypt 2 (deriveKey mp s2) i2
        (aeadEncrypt 1 (deriveKey mp s1) i1 data).1).1.length
      = (aeadEncrypt 1 (deriveKey mp s1) i1 data).1.length :=
    length_aeadEncrypt 2 (deriveKey mp s2) i2 (aeadEncrypt 1 (deriveKey mp s1) i1 data).1
  have hc : (encrypt mp s1 i1 s2 i2 data).ciphertext.length = data.length := by
    show (aeadEncrypt 2 (deriveKey mp s2) i2
      (aeadEncrypt 1 (deriveKey mp s1) i1 data).1).1.length = data.length
    rw [hct2, hct1]
  have ht1 : (encrypt mp s1 i1 s2 i2 data).authTag1.length = 16 := by
    show (aeadEncrypt 1 (deriveKey mp s1) i1 data).2.length = 16
    show (aeadTag 1 (deriveKey mp s1) i1
      (zipXor data (keystream 1 (deriveKey mp s1) i1 data.length))).length = 16
    exact length_aeadTag 1 _ _ _
  have ht2 : (encrypt mp s1 i1 s2 i2 data).authTag2.length = 16 := by
    show (aeadEncrypt 2 (deriveKey mp s2) i2
      (aeadEncrypt 1 (deriveKey mp s1) i1 data).1).2.length = 16
    show (aeadTag 2 (deriveKey mp s2) i2
      (zipXor (aeadEncrypt 1 (deriveKey mp s1) i1 data).1
        (keystream 2 (deriveKey mp s2) i2
          (aeadEncrypt 1 (deriveKey mp s1) i1 data).1.length))).length = 16
    exact length_aeadTag 2 _ _ _
  refine ⟨hct1, hct2, hc, ?_⟩
  intro junk
  refine ⟨_, packDataFrom_eq junk s1 s2 i1 i2 _ _ _ hs1 hs2 hi1 hi2 ht1 ht2, ?_⟩
  simp only [List.length_append, hs1, hs2, hi1, hi2, ht1, ht2, hc]

/-- C8 witness, the spec's concrete scenario: with the 25-byte passphrase
and the 14-byte plaintext holding the bytes of the sample strings, packing
the encryption result yields a container of 88 + 14 = 102 bytes. -/
theorem encrypt_lengths_witness :
    (∃ buf : List Nat,
      packDataFrom (fun _ => 0) (List.replicate 16 1) (List.replicate 16 2)
          (List.replicate 12 3) (List.replicate 12 4)
          (encrypt [67, 111, 114, 114, 101, 99, 116, 72, 111, 114, 115, 101, 66, 97, 116, 116, 101, 114, 121, 83, 116, 97, 112, 108, 101]
            (List.replicate 16 1) (List.replicate 12 3) (List.replicate 16 2) (List.replicate 12 4)
            [97, 116, 116, 97, 99, 107, 32, 97, 116, 32, 100, 97, 119, 110]).authTag1
          (encrypt [67, 111, 114, 114, 101, 99, 116, 72, 111, 114, 115, 101, 66, 97, 116, 116, 101, 114, 121, 83, 116, 97, 112, 108, 101]
            (List.replicate 16 1) (List.replicate 12 3) (List.replicate 16 2) (List.replicate 12 4)
            [97, 116, 116, 97, 99, 107, 32, 97, 116, 32, 100, 97, 119, 110]).authTag2
          (encrypt [67, 111, 114, 114, 101, 99, 116, 72, 111, 114, 115, 101, 66, 97, 116, 116, 101, 114, 121, 83, 116, 97, 112, 108, 101]
            (List.replicate 16 1) (List.replicate 12 3) (List.replicate 16 2) (List.replicate 12 4)
            [97, 116, 116, 97, 99, 107, 32, 97, 116, 32, 100, 97, 119, 110]).ciphertext
        = .ok buf ∧
      buf.length = 88 + ([97, 116, 116, 97, 99, 107, 32, 97, 116, 32, 100, 97, 119, 110] : List Nat).length) ∧
    88 + ([97, 116, 116, 97, 99, 107, 32, 97, 116, 32, 100, 97, 119, 110] : List Nat).length = 102 :=
  ⟨(encrypt_lengths
      [67, 111, 114, 114, 101, 99, 116, 72, 111, 114, 115, 101, 66, 97, 116, 116, 101, 114, 121, 83, 116, 97, 112, 108, 101]
      (List.replicate 16 1) (List.replicate 12 3) (List.replicate 16 2) (List.replicate 12 4)
      [97, 116, 116, 97, 99, 107, 32, 97, 116, 32, 100, 97, 119, 110]
      (by decide) (by decide) (by decide) (by decide)).2.2.2 (fun _ => 0),
   by decide⟩

/-- C10: when the six fixed fields pass validation, every byte of the
returned buffer is written before it is returned — bytes 0 to 88 are the
six fields in order and the rest is the payload — so the result never
contains any of the uninitialized allocation: it is the same for every
content of the uninitialized memory. -/
theorem pack_no_uninitialized (junk junk' : Nat → Nat) (s1 s2 i1 i2 t1 t2 p : List Nat)
    (h1 : s1.length = 16) (h2 : s2.length = 16) (h3 : i1.length = 12)
    (h4 : i2.length = 12) (h5 : t1.length = 16) (h6 : t2.length = 16) :
    packDataFrom junk s1 s2 i1 i2 t1 t2 p
      = .ok (s1 ++ s2 ++ i1 ++ i2 ++ t1 ++ t2 ++ p) ∧
    packDataFrom junk s1 s2 i1 i2 t1 t2 p = packDataFrom junk' s1 s2 i1 i2 t1 t2 p := by
  have hj := packDataFrom_eq junk s1 s2 i1 i2 t1 t2 p h1 h2 h3 h4 h5 h6
  have hj' := packDataFrom_eq junk' s1 s2 i1 i2 t1 t2 p h1 h2 h3 h4 h5 h6
  exact ⟨hj, hj.trans hj'.symm⟩

/-- C10 witness: two different uninitialized memories give the same
container for concrete valid fields. -/
theorem pack_no_uninitialized_witness :
    packDataFrom (fun n => n % 251) (List.replicate 16 8) (List.replicate 16 9)
        (List.replicate 12 10) (List.replicate 12 11) (List.replicate 16 12)
        (List.replicate 16 13) [14]
      = packDataFrom (fun _ => 255) (List.replicate 16 8) (List.replicate 16 9)
        (List.replicate 12 10) (List.replicate 12 11) (List.replicate 16 12)
        (List.replicate 16 13) [14] :=
  (pack_no_uninitialized (fun n => n % 251) (fun _ => 255) (List.replicate 16 8)
    (List.replicate 16 9) (List.replicate 12 10) (List.replicate 12 11)
    (List.replicate 16 12) (List.replicate 16 13) [14]
    (by decide) (by decide) (by decide) (by decide) (by decide) (by decide)).2

end DyCrypt
